import Mathlib

/-!
Verification of the dispatch-handler worker
(`src/workers/run-endpoint/src/index.js`).

The worker exports a single asynchronous `fetch(request, env)` function.
We embed it shallowly as a pure Lean function: the inbound request carries
its method and the result of `request.json()` (`none` when the body is not
parsable JSON), the environment carries the five configuration strings
(`none` when the variable is undefined), and the behaviour of the single
outbound `fetch` call is a parameter (`Upstream`: the status of the
upstream response together with the result of reading its body as text,
`none` when that read rejects).  The handler returns an `Outcome`: either
a `Response` paired with the outbound request it issued (if any), or
`Outcome.thrown` when the JavaScript code raises an uncaught exception
(property access `body.iata` on a `null` body).

Modelling notes:
* JSON numbers are modelled as integers (no claim involves fractional
  numbers); `String(n)` is decimal notation, as in JavaScript for
  integral values.
* `Json.obj` models the result of `JSON.parse`, whose objects have
  pairwise distinct keys (a duplicated key in the source text is resolved
  by `JSON.parse` before the handler sees the value), so first-match
  lookup is adequate.
* `toUpperCase` is modelled with ASCII case mapping; every claim involves
  ASCII data only.
-/

namespace RunEndpoint

/-- JSON values as produced by `JSON.parse` on the request body. -/
inductive Json where
  | null
  | bool (b : Bool)
  | num (n : Int)
  | str (s : String)
  | arr (elems : List Json)
  | obj (fields : List (String × Json))

/-- JavaScript truthiness of a JSON value (`null`, `false`, `0` and `""`
are falsy; arrays and objects are always truthy). -/
def Json.truthy : Json → Bool
  | .null => false
  | .bool b => b
  | .num n => n != 0
  | .str s => s != ""
  | .arr _ => true
  | .obj _ => true

mutual

/-- The JavaScript `String(·)` coercion on JSON values. -/
def jsString : Json → String
  | .null => "null"
  | .bool true => "true"
  | .bool false => "false"
  | .num n => toString n
  | .str s => s
  | .arr es => jsJoin es
  | .obj _ => "[object Object]"

/-- The `String(·)` coercion applied to an array element during
`Array.prototype.join`: `null` renders as the empty string there. -/
def jsElemString : Json → String
  | .null => ""
  | .bool true => "true"
  | .bool false => "false"
  | .num n => toString n
  | .str s => s
  | .arr es => jsJoin es
  | .obj _ => "[object Object]"

/-- The `Array.prototype.join` with separator `","`, as used by
`String(·)` on an array. -/
def jsJoin : List Json → String
  | [] => ""
  | [e] => jsElemString e
  | e :: es => jsElemString e ++ "," ++ jsJoin es

end

/-- One escaped character of `JSON.stringify` string output. -/
def jsonEscapeChar (c : Char) : String :=
  if c = '"' then "\\\""
  else if c = '\\' then "\\\\"
  else if c = '\n' then "\\n"
  else if c = '\r' then "\\r"
  else if c = '\t' then "\\t"
  else if c = Char.ofNat 8 then "\\b"
  else if c = Char.ofNat 12 then "\\f"
  else if c.toNat < 32 then
    "\\u00" ++ String.singleton (Nat.digitChar (c.toNat / 16))
            ++ String.singleton (Nat.digitChar (c.toNat % 16))
  else String.singleton c

/-- String output of `JSON.stringify`: quoted, with control characters,
quotes and backslashes escaped. -/
def jsonQuote (s : String) : String :=
  "\"" ++ String.join (s.toList.map jsonEscapeChar) ++ "\""

mutual

/-- Model of `JSON.stringify` (no spacing), as used for every response
body and for the outbound request body. -/
def stringify : Json → String
  | .null => "null"
  | .bool true => "true"
  | .bool false => "false"
  | .num n => toString n
  | .str s => jsonQuote s
  | .arr es => "[" ++ stringifyElems es ++ "]"
  | .obj fs => "\x7b" ++ stringifyFields fs ++ "\x7d"

/-- Comma-separated `JSON.stringify` output of array elements. -/
def stringifyElems : List Json → String
  | [] => ""
  | [e] => stringify e
  | e :: es => stringify e ++ "," ++ stringifyElems es

/-- Comma-separated `JSON.stringify` output of object fields, in insertion
order. -/
def stringifyFields : List (String × Json) → String
  | [] => ""
  | [(k, v)] => jsonQuote k ++ ":" ++ stringify v
  | (k, v) :: fs => jsonQuote k ++ ":" ++ stringify v ++ "," ++ stringifyFields fs

end

/-- Property lookup on a parsed JSON value, `none` for `undefined`
(absent key, or any non-object, non-null receiver). -/
def jsonGet : Json → String → Option Json
  | .obj fs, k => (fs.find? (fun p => p.1 = k)).map Prod.snd
  | _, _ => none

/-- JavaScript property access `j.k` on a parsed JSON value.
`.error ()` models the `TypeError` thrown when `j` is `null`;
otherwise the result is the property's value, `none` for `undefined`
(absent key, or any non-object receiver). -/
def propAccess : Json → String → Except Unit (Option Json)
  | .null, _ => .error ()
  | .obj fs, k => .ok ((fs.find? (fun p => p.1 = k)).map Prod.snd)
  | _, _ => .ok none

/-- The default-and-coerce step `String(v || "")` of line 28, applied to
the value of `body.iata` (`none` = `undefined`). -/
def coerceIata : Option Json → String
  | none => ""
  | some j => if j.truthy then jsString j else ""

/-- The characters removed by `String.prototype.trim`: JavaScript
WhiteSpace (tab, vertical tab, form feed, space, no-break space, BOM and
the Unicode space separators) and LineTerminator (LF, CR, LS, PS). -/
def jsWhitespaceChar (c : Char) : Bool :=
  let n := c.toNat
  n = 9 || n = 10 || n = 11 || n = 12 || n = 13 || n = 32 || n = 160
    || n = 0x1680 || (0x2000 ≤ n && n ≤ 0x200A) || n = 0x2028 || n = 0x2029
    || n = 0x202F || n = 0x205F || n = 0x3000 || n = 0xFEFF

/-- Model of `s.trim()`: remove leading and trailing JavaScript
whitespace. -/
def jsTrim (s : String) : String :=
  String.mk (((s.data.dropWhile jsWhitespaceChar).reverse.dropWhile
    jsWhitespaceChar).reverse)

/-- Model of `s.toUpperCase()` (ASCII case mapping, which covers all
claim data). -/
def jsToUpper (s : String) : String :=
  String.mk (s.data.map Char.toUpper)

/-- The regular-expression test `/^[A-Z]{3}$/.test(s)`: exactly three
characters, each an uppercase Latin letter. -/
def validIata (s : String) : Bool :=
  s.length = 3 && s.toList.all (fun c => 'A' ≤ c && c ≤ 'Z')

/-- An inbound HTTP request, reduced to what the handler inspects:
its method, and the result of `await request.json()`
(`none` when the body does not parse as JSON). -/
structure Request where
  method : String
  jsonBody : Option Json

/-- The five configuration values read from `env`; `none` models an
undefined binding. -/
structure Env where
  GH_OWNER : Option String
  GH_REPO : Option String
  GH_WORKFLOW_FILE : Option String
  GH_WORKFLOW_REF : Option String
  GH_TOKEN : Option String

/-- JavaScript falsiness of a configuration value: undefined or the empty
string (the only falsy JavaScript strings). -/
def envFalsy : Option String → Bool
  | none => true
  | some s => s = ""

/-- The test of line 42: `!owner || !repo || !workflow || !ref || !token`. -/
def missingEnv (e : Env) : Bool :=
  envFalsy e.GH_OWNER || envFalsy e.GH_REPO || envFalsy e.GH_WORKFLOW_FILE
    || envFalsy e.GH_WORKFLOW_REF || envFalsy e.GH_TOKEN

/-- The upstream behaviour of the single outbound `fetch`: the status of
the response `r`, and the result of `r.text()` (`none` when that promise
rejects). -/
structure Upstream where
  status : Nat
  textResult : Option String

/-- The `r.ok` predicate: status in the inclusive range 200–299. -/
def respOk (status : Nat) : Bool :=
  200 ≤ status && status ≤ 299

/-- An HTTP response as the handler constructs it: status, headers in
insertion order, and body (`none` for `new Response(null, ...)`). -/
structure Response where
  status : Nat
  headers : List (String × String)
  body : Option String
deriving DecidableEq

/-- The outbound HTTP request of lines 49–60. -/
structure OutboundRequest where
  url : String
  method : String
  headers : List (String × String)
  body : String
deriving DecidableEq

/-- Result of one handler invocation: a response together with the
outbound request issued before it (`none` when no outbound call was
made), or an uncaught JavaScript exception. -/
inductive Outcome where
  | thrown
  | done (resp : Response) (dispatched : Option OutboundRequest)
deriving DecidableEq

/-- The response of an outcome, when the handler produced one. -/
def Outcome.respOf : Outcome → Option Response
  | .thrown => none
  | .done r _ => some r

/-- The outbound request of an outcome, when one was issued. -/
def Outcome.outboundOf : Outcome → Option OutboundRequest
  | .thrown => none
  | .done _ d => d

/-- The `cors` constant of lines 3–7. -/
def corsHeaders : List (String × String) :=
  [("Access-Control-Allow-Origin", "*"),
   ("Access-Control-Allow-Methods", "POST,OPTIONS"),
   ("Access-Control-Allow-Headers", "content-type")]

/-- The header object `{ ...cors, "content-type": "application/json" }`
of every non-preflight response. -/
def jsonHeaders : List (String × String) :=
  corsHeaders ++ [("content-type", "application/json")]

/-- The error body `JSON.stringify({ ok: false, error: msg })`. -/
def errBody (msg : String) : String :=
  stringify (.obj [("ok", .bool false), ("error", .str msg)])

/-- The normalized code of line 28, as a function of the parsed body:
`String(body.iata || "").trim().toUpperCase()` (the empty string in the
impossible throwing case, which the handler never reaches). -/
def normIata (body : Json) : String :=
  match propAccess body "iata" with
  | .error _ => ""
  | .ok v => jsToUpper (jsTrim (coerceIata v))

/-- The outbound request of lines 49–60, as a function of the (checked,
hence non-empty) configuration values and the normalized code. -/
def dispatchRequest (env : Env) (iata : String) : OutboundRequest :=
  { url := "https://api.github.com/repos/" ++ env.GH_OWNER.getD "" ++ "/"
      ++ env.GH_REPO.getD "" ++ "/actions/workflows/"
      ++ env.GH_WORKFLOW_FILE.getD "" ++ "/dispatches"
    method := "POST"
    headers :=
      [("Authorization", "Bearer " ++ env.GH_TOKEN.getD ""),
       ("Accept", "application/vnd.github+json"),
       ("User-Agent", "aviation-iia-run-endpoint"),
       ("Content-Type", "application/json")]
    body := stringify (.obj [("ref", .str (env.GH_WORKFLOW_REF.getD "")),
      ("inputs", .obj [("iata", .str iata)])]) }

/-- The handler `fetch(request, env)`, with the upstream behaviour of the
outbound call passed explicitly. -/
def handleFetch (req : Request) (env : Env) (upstream : Upstream) : Outcome :=
  if req.method = "OPTIONS" then
    .done ⟨204, corsHeaders, none⟩ none
  else if req.method ≠ "POST" then
    .done ⟨405, jsonHeaders, some (errBody "POST only")⟩ none
  else
    match req.jsonBody with
    | none => .done ⟨400, jsonHeaders, some (errBody "Invalid JSON")⟩ none
    | some body =>
      match propAccess body "iata" with
      | .error _ => .thrown
      | .ok v =>
        let iata := jsToUpper (jsTrim (coerceIata v))
        if !(validIata iata) then
          .done ⟨400, jsonHeaders, some (errBody "IATA must be 3 letters")⟩ none
        else if missingEnv env then
          .done ⟨500, jsonHeaders, some (errBody "Missing env vars/secrets")⟩ none
        else
          let outb := dispatchRequest env iata
          if !(respOk upstream.status) then
            let text := upstream.textResult.getD ""
            .done ⟨502, jsonHeaders,
              some (stringify (.obj [("ok", .bool false),
                ("error", .str "GitHub dispatch failed"),
                ("status", .num upstream.status),
                ("detail", .str text)]))⟩ (some outb)
          else
            .done ⟨200, jsonHeaders,
              some (stringify (.obj [("ok", .bool true),
                ("dispatched", .bool true),
                ("iata", .str iata)]))⟩ (some outb)

/-- An environment update `GH_TOKEN := t`, used to state that the token
does not influence the inbound response. -/
def withToken (e : Env) (t : String) : Env :=
  { e with GH_TOKEN := some t }

/-- An outbound request with its `Authorization` header removed. -/
def dropAuth (o : OutboundRequest) : OutboundRequest :=
  { o with headers := o.headers.filter (fun p => p.1 ≠ "Authorization") }

/-- A fully populated environment, for concrete witnesses. -/
def envA : Env :=
  ⟨some "motstothartarup", some "Aviation-Iia-Master-Repository",
   some "run-both.yml", some "global_integration", some "tokA"⟩

/-- An entirely undefined environment, for concrete witnesses. -/
def envNone : Env := ⟨none, none, none, none, none⟩

/-- An upstream 2xx behaviour (GitHub answers 204 on a successful
dispatch), for concrete witnesses. -/
def upOk : Upstream := ⟨204, some ""⟩

/-- An upstream failure behaviour, for concrete witnesses. -/
def up404 : Upstream := ⟨404, some "Not Found"⟩

/-! ### Branch lemmas

One lemma per terminal branch of the handler, shared by the claim
theorems below. -/

theorem propAccess_eq (b : Json) (k : String) (h : b ≠ Json.null) :
    propAccess b k = .ok (jsonGet b k) := by
  cases b <;> first | exact absurd rfl h | rfl

theorem normIata_eq (b : Json) (h : b ≠ Json.null) :
    normIata b = jsToUpper (jsTrim (coerceIata (jsonGet b "iata"))) := by
  simp [normIata, propAccess_eq b "iata" h]

theorem handle_options_branch (req : Request) (env : Env) (up : Upstream)
    (h : req.method = "OPTIONS") :
    handleFetch req env up = .done ⟨204, corsHeaders, none⟩ none := by
  rw [handleFetch, if_pos h]

theorem handle_bad_method (req : Request) (env : Env) (up : Upstream)
    (h1 : req.method ≠ "OPTIONS") (h2 : req.method ≠ "POST") :
    handleFetch req env up
      = .done ⟨405, jsonHeaders, some (errBody "POST only")⟩ none := by
  rw [handleFetch, if_neg h1, if_pos h2]

theorem handle_bad_json (env : Env) (up : Upstream) :
    handleFetch ⟨"POST", none⟩ env up
      = .done ⟨400, jsonHeaders, some (errBody "Invalid JSON")⟩ none := rfl

theorem handle_null_body (env : Env) (up : Upstream) :
    handleFetch ⟨"POST", some Json.null⟩ env up = .thrown := rfl

theorem handle_invalid_iata (b : Json) (env : Env) (up : Upstream)
    (hb : b ≠ Json.null) (hv : validIata (normIata b) = false) :
    handleFetch ⟨"POST", some b⟩ env up
      = .done ⟨400, jsonHeaders, some (errBody "IATA must be 3 letters")⟩ none := by
  rw [normIata_eq b hb] at hv
  simp [handleFetch, propAccess_eq b "iata" hb, hv]

theorem handle_missing_env (b : Json) (env : Env) (up : Upstream)
    (hv : validIata (normIata b) = true) (hm : missingEnv env = true) :
    handleFetch ⟨"POST", some b⟩ env up
      = .done ⟨500, jsonHeaders, some (errBody "Missing env vars/secrets")⟩ none := by
  have hb : b ≠ Json.null := by
    intro e
    subst e
    exact absurd hv (by decide)
  rw [normIata_eq b hb] at hv
  simp [handleFetch, propAccess_eq b "iata" hb, hv, hm]

theorem handle_upstream_fail (b : Json) (env : Env) (up : Upstream)
    (hv : validIata (normIata b) = true) (hm : missingEnv env = false)
    (hs : respOk up.status = false) :
    handleFetch ⟨"POST", some b⟩ env up
      = .done ⟨502, jsonHeaders,
          some (stringify (.obj [("ok", .bool false),
            ("error", .str "GitHub dispatch failed"),
            ("status", .num up.status),
            ("detail", .str (up.textResult.getD ""))]))⟩
        (some (dispatchRequest env (normIata b))) := by
  have hb : b ≠ Json.null := by
    intro e
    subst e
    exact absurd hv (by decide)
  rw [normIata_eq b hb] at hv ⊢
  simp [handleFetch, propAccess_eq b "iata" hb, hv, hm, hs]

theorem handle_upstream_success (b : Json) (env : Env) (up : Upstream)
    (hv : validIata (normIata b) = true) (hm : missingEnv env = false)
    (hs : respOk up.status = true) :
    handleFetch ⟨"POST", some b⟩ env up
      = .done ⟨200, jsonHeaders,
          some (stringify (.obj [("ok", .bool true),
            ("dispatched", .bool true),
            ("iata", .str (normIata b))]))⟩
        (some (dispatchRequest env (normIata b))) := by
  have hb : b ≠ Json.null := by
    intro e
    subst e
    exact absurd hv (by decide)
  rw [normIata_eq b hb] at hv ⊢
  simp [handleFetch, propAccess_eq b "iata" hb, hv, hm, hs]

/-! ### Claim theorems -/

/-- C1 (amended: bodies other than JSON `null`, on which the property
access `body.iata` throws): for every POST request whose body parses as
JSON to a value other than `null`, the handler reads the field `iata`
(defaulting to the empty string when absent or falsy), trims whitespace,
uppercases it, and when the result is not exactly three uppercase Latin
letters returns status 400 with body
`{"ok":false,"error":"IATA must be 3 letters"}`; input
`{"iata":" jfk "}` is normalized to `"JFK"` and passes validation. -/
theorem iata_normalization_and_validation :
    (∀ (b : Json) (env : Env) (up : Upstream), b ≠ Json.null →
      validIata (normIata b) = false →
      handleFetch ⟨"POST", some b⟩ env up
        = .done ⟨400, jsonHeaders, some (errBody "IATA must be 3 letters")⟩ none)
    ∧ normIata (.obj [("iata", .str " jfk ")]) = "JFK"
    ∧ validIata "JFK" = true :=
  ⟨fun b env up hb hv => handle_invalid_iata b env up hb hv, by decide, by decide⟩

/-- C1 witness: input `{"iata":"ab1"}` fails validation and receives the
400 response. -/
theorem iata_normalization_and_validation_witness :
    handleFetch ⟨"POST", some (.obj [("iata", .str "ab1")])⟩ envA upOk
      = .done ⟨400, jsonHeaders, some (errBody "IATA must be 3 letters")⟩ none :=
  iata_normalization_and_validation.1 (.obj [("iata", .str "ab1")]) envA upOk
    (fun h => Json.noConfusion h) (by decide)

/-- C1 counterexample: a POST whose body parses as the JSON value `null`
does not receive the 400 response the claim requires (its normalized
code would be the empty string); the property access `body.iata` on
line 28 throws a `TypeError` instead, so the handler produces no
response at all. -/
theorem iata_validation_null_body_counterexample :
    handleFetch ⟨"POST", some Json.null⟩ envA upOk = .thrown
    ∧ handleFetch ⟨"POST", some Json.null⟩ envA upOk
        ≠ .done ⟨400, jsonHeaders, some (errBody "IATA must be 3 letters")⟩ none :=
  ⟨by decide, by decide⟩

/-- C2: for every POST request with a valid normalized IATA code, all
five configuration values non-empty, and a 2xx upstream response, the
handler returns status 200 with body exactly
`{"ok":true,"dispatched":true,"iata":<normalized code>}`; the normalized
code for input `"jfk"` is `"JFK"`. -/
theorem success_response :
    (∀ (b : Json) (env : Env) (up : Upstream),
      validIata (normIata b) = true → missingEnv env = false →
      respOk up.status = true →
      (handleFetch ⟨"POST", some b⟩ env up).respOf
        = some ⟨200, jsonHeaders,
            some (stringify (.obj [("ok", .bool true),
              ("dispatched", .bool true),
              ("iata", .str (normIata b))]))⟩)
    ∧ normIata (.obj [("iata", .str "jfk")]) = "JFK" :=
  ⟨fun b env up hv hm hs => by
    rw [handle_upstream_success b env up hv hm hs, Outcome.respOf],
   by decide⟩

/-- C2 witness: input `{"iata":"jfk"}` with the populated environment and
a 204 upstream response yields the 200 success response. -/
theorem success_response_witness :
    (handleFetch ⟨"POST", some (.obj [("iata", .str "jfk")])⟩ envA upOk).respOf
      = some ⟨200, jsonHeaders,
          some (stringify (.obj [("ok", .bool true),
            ("dispatched", .bool true),
            ("iata", .str (normIata (.obj [("iata", .str "jfk")])))]))⟩ :=
  success_response.1 (.obj [("iata", .str "jfk")]) envA upOk
    (by decide) (by decide) (by decide)

/-- C3: for every request that passes the method gate, body parse, IATA
validation and configuration check, the handler issues exactly one
outbound POST to the GitHub workflow-dispatch URL with the Authorization,
Accept, User-Agent and Content-Type headers and JSON body
`{"ref": <ref>, "inputs": {"iata": <normalized code>}}`. -/
theorem outbound_dispatch_contract :
    ∀ (b : Json) (env : Env) (up : Upstream),
      validIata (normIata b) = true → missingEnv env = false →
      (handleFetch ⟨"POST", some b⟩ env up).outboundOf
        = some
          { url := "https://api.github.com/repos/" ++ env.GH_OWNER.getD ""
              ++ "/" ++ env.GH_REPO.getD "" ++ "/actions/workflows/"
              ++ env.GH_WORKFLOW_FILE.getD "" ++ "/dispatches"
            method := "POST"
            headers :=
              [("Authorization", "Bearer " ++ env.GH_TOKEN.getD ""),
               ("Accept", "application/vnd.github+json"),
               ("User-Agent", "aviation-iia-run-endpoint"),
               ("Content-Type", "application/json")]
            body := stringify (.obj [("ref", .str (env.GH_WORKFLOW_REF.getD "")),
              ("inputs", .obj [("iata", .str (normIata b))])]) } := by
  intro b env up hv hm
  rcases Bool.eq_false_or_eq_true (respOk up.status) with hs | hs
  · rw [handle_upstream_success b env up hv hm hs, Outcome.outboundOf]
    rfl
  · rw [handle_upstream_fail b env up hv hm hs, Outcome.outboundOf]
    rfl

/-- C3 witness: the concrete outbound request for input `{"iata":"jfk"}`
with the populated environment. -/
theorem outbound_dispatch_contract_witness :
    (handleFetch ⟨"POST", some (.obj [("iata", .str "jfk")])⟩ envA up404).outboundOf
      = some
        { url := "https://api.github.com/repos/" ++ envA.GH_OWNER.getD ""
            ++ "/" ++ envA.GH_REPO.getD "" ++ "/actions/workflows/"
            ++ envA.GH_WORKFLOW_FILE.getD "" ++ "/dispatches"
          method := "POST"
          headers :=
            [("Authorization", "Bearer " ++ envA.GH_TOKEN.getD ""),
             ("Accept", "application/vnd.github+json"),
             ("User-Agent", "aviation-iia-run-endpoint"),
             ("Content-Type", "application/json")]
          body := stringify (.obj [("ref", .str (envA.GH_WORKFLOW_REF.getD "")),
            ("inputs", .obj [("iata", .str (normIata (.obj [("iata", .str "jfk")])))])]) } :=
  outbound_dispatch_contract (.obj [("iata", .str "jfk")]) envA up404
    (by decide) (by decide)

/-- C4: for every request whose outbound dispatch returns a non-2xx
status, the handler returns status 502 with body
`{"ok":false,"error":"GitHub dispatch failed","status":<upstream
status>,"detail":<upstream body text>}`, the detail defaulting to the
empty string when reading the upstream body fails. -/
theorem upstream_failure_response :
    ∀ (b : Json) (env : Env) (up : Upstream),
      validIata (normIata b) = true → missingEnv env = false →
      respOk up.status = false →
      (handleFetch ⟨"POST", some b⟩ env up).respOf
        = some ⟨502, jsonHeaders,
            some (stringify (.obj [("ok", .bool false),
              ("error", .str "GitHub dispatch failed"),
              ("status", .num up.status),
              ("detail", .str (up.textResult.getD ""))]))⟩ := by
  intro b env up hv hm hs
  rw [handle_upstream_fail b env up hv hm hs, Outcome.respOf]

/-- C4 witness: an upstream 404 with unreadable body yields the 502
response with status 404 and empty detail. -/
theorem upstream_failure_response_witness :
    (handleFetch ⟨"POST", some (.obj [("iata", .str "jfk")])⟩ envA ⟨404, none⟩).respOf
      = some ⟨502, jsonHeaders,
          some (stringify (.obj [("ok", .bool false),
            ("error", .str "GitHub dispatch failed"),
            ("status", .num 404),
            ("detail", .str "")]))⟩ :=
  upstream_failure_response (.obj [("iata", .str "jfk")]) envA ⟨404, none⟩
    (by decide) (by decide) (by decide)

/-- C5: for every POST request with a valid normalized IATA code, a
missing or empty configuration value yields status 500 with body
`{"ok":false,"error":"Missing env vars/secrets"}`; and the check happens
only after input validation, so a POST whose normalized code is invalid
yields status 400 even when configuration values are missing. -/
theorem missing_config_after_validation :
    (∀ (b : Json) (env : Env) (up : Upstream),
      validIata (normIata b) = true → missingEnv env = true →
      handleFetch ⟨"POST", some b⟩ env up
        = .done ⟨500, jsonHeaders, some (errBody "Missing env vars/secrets")⟩ none)
    ∧ (∀ (b : Json) (env : Env) (up : Upstream), b ≠ Json.null →
      validIata (normIata b) = false → missingEnv env = true →
      handleFetch ⟨"POST", some b⟩ env up
        = .done ⟨400, jsonHeaders, some (errBody "IATA must be 3 letters")⟩ none) :=
  ⟨fun b env up hv hm => handle_missing_env b env up hv hm,
   fun b env up hb hv _ => handle_invalid_iata b env up hb hv⟩

/-- C5 witness: with every configuration value undefined, a valid code
gets the 500 response and an invalid code still gets the 400 response. -/
theorem missing_config_after_validation_witness :
    handleFetch ⟨"POST", some (.obj [("iata", .str "jfk")])⟩ envNone upOk
      = .done ⟨500, jsonHeaders, some (errBody "Missing env vars/secrets")⟩ none
    ∧ handleFetch ⟨"POST", some (.obj [("iata", .str "ab1")])⟩ envNone upOk
      = .done ⟨400, jsonHeaders, some (errBody "IATA must be 3 letters")⟩ none :=
  ⟨missing_config_after_validation.1 (.obj [("iata", .str "jfk")]) envNone upOk
    (by decide) (by decide),
   missing_config_after_validation.2 (.obj [("iata", .str "ab1")]) envNone upOk
    (fun h => Json.noConfusion h) (by decide) (by decide)⟩

/-- C6: every response the handler produces for a non-OPTIONS request,
on every branch, carries the three CORS headers merged with
`content-type: application/json`. -/
theorem cors_headers_on_responses :
    ∀ (req : Request) (env : Env) (up : Upstream) (r : Response)
      (d : Option OutboundRequest),
      req.method ≠ "OPTIONS" → handleFetch req env up = .done r d →
      r.headers = corsHeaders ++ [("content-type", "application/json")] := by
  intro req env up r d hm h
  obtain ⟨m, ob⟩ := req
  by_cases hp : m = "POST"
  · subst hp
    cases ob with
    | none =>
      rw [handle_bad_json] at h
      cases h
      rfl
    | some b =>
      by_cases hb : b = Json.null
      · subst hb
        rw [handle_null_body] at h
        cases h
      · rcases Bool.eq_false_or_eq_true (validIata (normIata b)) with hv | hv
        · rcases Bool.eq_false_or_eq_true (missingEnv env) with hm2 | hm2
          · rw [handle_missing_env b env up hv hm2] at h
            cases h
            rfl
          · rcases Bool.eq_false_or_eq_true (respOk up.status) with hs | hs
            · rw [handle_upstream_success b env up hv hm2 hs] at h
              cases h
              rfl
            · rw [handle_upstream_fail b env up hv hm2 hs] at h
              cases h
              rfl
        · rw [handle_invalid_iata b env up hb hv] at h
          cases h
          rfl
  · rw [handle_bad_method ⟨m, ob⟩ env up hm hp] at h
    cases h
    rfl

/-- C6 witness: the parse-failure 400 response carries the CORS headers
merged with the JSON content type. -/
theorem cors_headers_on_responses_witness :
    Response.headers ⟨400, jsonHeaders, some (errBody "Invalid JSON")⟩
      = corsHeaders ++ [("content-type", "application/json")] :=
  cors_headers_on_responses ⟨"POST", none⟩ envA upOk
    ⟨400, jsonHeaders, some (errBody "Invalid JSON")⟩ none
    (by decide) (by decide)

theorem missingEnv_withToken_eq (e : Env) (t t' : String)
    (h : t ≠ "") (h' : t' ≠ "") :
    missingEnv (withToken e t) = missingEnv (withToken e t') := by
  simp [missingEnv, withToken, envFalsy, h, h']

theorem dropAuth_dispatch (e : Env) (t t' s : String) :
    dropAuth (dispatchRequest (withToken e t) s)
      = dropAuth (dispatchRequest (withToken e t') s) := rfl

/-- C7: the secret token is never echoed: two executions differing only
in the (non-empty) `GH_TOKEN`, on the same request and upstream
behaviour, produce the same inbound response (status, headers and body),
issue outbound requests identical outside the `Authorization` header,
and the token reaches only that header, as `Bearer <token>`. -/
theorem token_noninterference :
    ∀ (req : Request) (env : Env) (up : Upstream) (t t' : String),
      t ≠ "" → t' ≠ "" →
      (handleFetch req (withToken env t) up).respOf
        = (handleFetch req (withToken env t') up).respOf
      ∧ Option.map dropAuth (handleFetch req (withToken env t) up).outboundOf
        = Option.map dropAuth (handleFetch req (withToken env t') up).outboundOf
      ∧ ∀ o, (handleFetch req (withToken env t) up).outboundOf = some o →
          o.headers.head? = some ("Authorization", "Bearer " ++ t) := by
  intro req env up t t' ht ht'
  obtain ⟨m, ob⟩ := req
  by_cases ho : m = "OPTIONS"
  · rw [handle_options_branch ⟨m, ob⟩ (withToken env t) up ho,
      handle_options_branch ⟨m, ob⟩ (withToken env t') up ho]
    exact ⟨rfl, rfl, fun o hc => Option.noConfusion hc⟩
  · by_cases hp : m = "POST"
    · subst hp
      cases ob with
      | none =>
        rw [handle_bad_json, handle_bad_json]
        exact ⟨rfl, rfl, fun o hc => Option.noConfusion hc⟩
      | some b =>
        by_cases hb : b = Json.null
        · subst hb
          rw [handle_null_body, handle_null_body]
          exact ⟨rfl, rfl, fun o hc => Option.noConfusion hc⟩
        · rcases Bool.eq_false_or_eq_true (validIata (normIata b)) with hv | hv
          · have hmeq := missingEnv_withToken_eq env t t' ht ht'
            rcases Bool.eq_false_or_eq_true (missingEnv (withToken env t))
              with hm2 | hm2
            · rw [handle_missing_env b (withToken env t) up hv hm2,
                handle_missing_env b (withToken env t') up hv (hmeq ▸ hm2)]
              exact ⟨rfl, rfl, fun o hc => Option.noConfusion hc⟩
            · rcases Bool.eq_false_or_eq_true (respOk up.status) with hs | hs
              · rw [handle_upstream_success b (withToken env t) up hv hm2 hs,
                  handle_upstream_success b (withToken env t') up hv
                    (hmeq ▸ hm2) hs]
                refine ⟨rfl, congrArg some (dropAuth_dispatch env t t' _), ?_⟩
                intro o hc
                cases hc
                rfl
              · rw [handle_upstream_fail b (withToken env t) up hv hm2 hs,
                  handle_upstream_fail b (withToken env t') up hv
                    (hmeq ▸ hm2) hs]
                refine ⟨rfl, congrArg some (dropAuth_dispatch env t t' _), ?_⟩
                intro o hc
                cases hc
                rfl
          · rw [handle_invalid_iata b (withToken env t) up hb hv,
              handle_invalid_iata b (withToken env t') up hb hv]
            exact ⟨rfl, rfl, fun o hc => Option.noConfusion hc⟩
    · rw [handle_bad_method ⟨m, ob⟩ (withToken env t) up ho hp,
        handle_bad_method ⟨m, ob⟩ (withToken env t') up ho hp]
      exact ⟨rfl, rfl, fun o hc => Option.noConfusion hc⟩

/-- C7 witness: two concrete tokens on the same request and upstream
yield the same response, outbound requests equal after removing the
`Authorization` header, and the first outbound header is the bearer
token. -/
theorem token_noninterference_witness :
    (handleFetch ⟨"POST", some (.obj [("iata", .str "jfk")])⟩
        (withToken envA "s3cret") upOk).respOf
      = (handleFetch ⟨"POST", some (.obj [("iata", .str "jfk")])⟩
          (withToken envA "other") upOk).respOf
    ∧ Option.map dropAuth (handleFetch ⟨"POST", some (.obj [("iata", .str "jfk")])⟩
          (withToken envA "s3cret") upOk).outboundOf
      = Option.map dropAuth (handleFetch ⟨"POST", some (.obj [("iata", .str "jfk")])⟩
          (withToken envA "other") upOk).outboundOf
    ∧ (dispatchRequest (withToken envA "s3cret") "JFK").headers.head?
      = some ("Authorization", "Bearer " ++ "s3cret") :=
  have h := token_noninterference ⟨"POST", some (.obj [("iata", .str "jfk")])⟩
    envA upOk "s3cret" "other" (by decide) (by decide)
  ⟨h.1, h.2.1,
   h.2.2 (dispatchRequest (withToken envA "s3cret") "JFK") (by decide)⟩

/-- C8: every POST request whose body cannot be parsed as JSON receives
status 400 with body `{"ok":false,"error":"Invalid JSON"}`. -/
theorem invalid_json_response :
    ∀ (env : Env) (up : Upstream),
      handleFetch ⟨"POST", none⟩ env up
        = .done ⟨400, jsonHeaders, some (errBody "Invalid JSON")⟩ none :=
  fun env up => handle_bad_json env up

/-- C9: an OPTIONS request receives status 204 with empty body and the
CORS headers; a request with any method other than OPTIONS or POST
receives status 405 with body `{"ok":false,"error":"POST only"}`. -/
theorem method_gate :
    (∀ (req : Request) (env : Env) (up : Upstream), req.method = "OPTIONS" →
      handleFetch req env up = .done ⟨204, corsHeaders, none⟩ none)
    ∧ (∀ (req : Request) (env : Env) (up : Upstream),
      req.method ≠ "OPTIONS" → req.method ≠ "POST" →
      handleFetch req env up
        = .done ⟨405, jsonHeaders, some (errBody "POST only")⟩ none) :=
  ⟨fun req env up h => handle_options_branch req env up h,
   fun req env up h1 h2 => handle_bad_method req env up h1 h2⟩

/-- C9 witness: a concrete OPTIONS request gets the 204 preflight
response and a concrete GET request gets the 405 response. -/
theorem method_gate_witness :
    handleFetch ⟨"OPTIONS", none⟩ envA upOk
      = .done ⟨204, corsHeaders, none⟩ none
    ∧ handleFetch ⟨"GET", none⟩ envA upOk
      = .done ⟨405, jsonHeaders, some (errBody "POST only")⟩ none :=
  ⟨method_gate.1 ⟨"OPTIONS", none⟩ envA upOk rfl,
   method_gate.2 ⟨"GET", none⟩ envA upOk (by decide) (by decide)⟩

/-- C10: whenever the handler returns an error response with status 405,
400 or 500, no outbound HTTP call was made. -/
theorem no_dispatch_on_rejection :
    ∀ (req : Request) (env : Env) (up : Upstream) (r : Response)
      (d : Option OutboundRequest),
      handleFetch req env up = .done r d →
      (r.status = 405 ∨ r.status = 400 ∨ r.status = 500) → d = none := by
  intro req env up r d h hst
  obtain ⟨m, ob⟩ := req
  by_cases ho : m = "OPTIONS"
  · rw [handle_options_branch ⟨m, ob⟩ env up ho] at h
    cases h
    rfl
  · by_cases hp : m = "POST"
    · subst hp
      cases ob with
      | none =>
        rw [handle_bad_json] at h
        cases h
        rfl
      | some b =>
        by_cases hb : b = Json.null
        · subst hb
          rw [handle_null_body] at h
          cases h
        · rcases Bool.eq_false_or_eq_true (validIata (normIata b)) with hv | hv
          · rcases Bool.eq_false_or_eq_true (missingEnv env) with hm2 | hm2
            · rw [handle_missing_env b env up hv hm2] at h
              cases h
              rfl
            · rcases Bool.eq_false_or_eq_true (respOk up.status) with hs | hs
              · rw [handle_upstream_success b env up hv hm2 hs] at h
                cases h
                simp at hst
              · rw [handle_upstream_fail b env up hv hm2 hs] at h
                cases h
                simp at hst
          · rw [handle_invalid_iata b env up hb hv] at h
            cases h
            rfl
    · rw [handle_bad_method ⟨m, ob⟩ env up ho hp] at h
      cases h
      rfl

/-- C10 witness: the 405 response to a concrete GET request carries no
outbound request. -/
theorem no_dispatch_on_rejection_witness :
    (none : Option OutboundRequest) = none :=
  no_dispatch_on_rejection ⟨"GET", none⟩ envA upOk
    ⟨405, jsonHeaders, some (errBody "POST only")⟩ none
    (by decide) (Or.inl rfl)

end RunEndpoint
